import Mathlib

/-!
Verification development for the CoAP content-negotiation calculator
(`src/things/calculator/coap/js/coap-content-negotiation-calculator.js`).

The server exposes one thing (`coap-calculator-content-negotiation`) with
properties `result` and `lastChange`, actions `add` and `subtract`, and the
event `update`.  Each affordance's form list is expanded over the two
registered representations `application/json` and `application/cbor`, and a
request dispatcher negotiates representations, mutates the accumulator
state and serves reads, mutations and observation subscriptions.

The shallow embedding below transcribes the form-expansion loops and the
request handler from the JavaScript source.  The transport library and the
JSON/CBOR codecs are external collaborators: requests carry their decoded
payload as a `JSVal`, and serialization is modelled as a tagged payload
(`Payload.jsonBytes` / `Payload.cborBytes`) recording which encoder the
handler chose and which value it encoded.
-/

namespace CoapCalc

/-- The `supportedContentTypes` list from the source (line 52). -/
def supportedContentTypes : List String := ["application/json", "application/cbor"]

/-- The `formatIdentifiers` table from the source (lines 53-56), as an ordered
association list (JavaScript object keys iterate in insertion order). -/
def formatIdentifiers : List (String × Nat) :=
  [("application/json", 50), ("application/cbor", 60)]

/-- The configured thing name (line 12). -/
def thingName : String := "coap-calculator-content-negotiation"

/-- One interaction form of the thing description.  Fields mirror the JSON
object built by the source: `contentType`/`cov:contentFormat` describe the
request representation, `cov:accept` and `response.contentType` /
`response.cov:contentFormat` the response representation. -/
structure Form where
  href : String
  contentType : String
  covContentFormat : Nat
  op : List String
  covMethod : String
  covAccept : Nat
  responseContentType : String
  responseCovContentFormat : Nat
  subprotocol : Option String
  deriving DecidableEq, Repr

/-- The `defaultForm` template from the source (lines 58-69). -/
def defaultForm : Form :=
  { href := ""
    contentType := "application/json"
    covContentFormat := 50
    op := []
    covMethod := ""
    covAccept := 50
    responseContentType := "application/json"
    responseCovContentFormat := 50
    subprotocol := none }

/-- Form expansion for one property affordance (source lines 72-106): a
read form and an observe form in the default representation, then for every
other registered format a read form and an observe form in that format. -/
def propertyForms (key : String) : List Form :=
  let newFormRead : Form :=
    { defaultForm with
        href := "properties/" ++ key
        covMethod := "GET"
        op := ["readproperty"] }
  let newFormObs : Form :=
    { newFormRead with
        op := ["observeproperty", "unobserveproperty"]
        subprotocol := some "cov:observe" }
  let originalForm := newFormRead
  formatIdentifiers.foldl
    (fun forms idFmt =>
      if originalForm.contentType ≠ idFmt.1 then
        let r : Form :=
          { originalForm with
              contentType := idFmt.1
              covContentFormat := idFmt.2
              covAccept := idFmt.2
              responseContentType := idFmt.1
              responseCovContentFormat := idFmt.2 }
        let o : Form :=
          { r with
              op := ["observeproperty", "unobserveproperty"]
              subprotocol := some "cov:observe" }
        forms ++ [r, o]
      else forms)
    [newFormRead, newFormObs]

/-- Form expansion for one action affordance (source lines 109-163): the
base form, then for every registered format either (format ≠ base request
representation) a symmetric form plus one form per other response format,
or (format = base request representation) one form per other response
format on top of the base form. -/
def actionForms (key : String) : List Form :=
  let newForm : Form :=
    { defaultForm with
        href := "actions/" ++ key
        covMethod := "POST"
        op := ["invokeaction"] }
  let originalForm := newForm
  formatIdentifiers.foldl
    (fun forms idFmt =>
      if originalForm.contentType ≠ idFmt.1 then
        let f : Form :=
          { originalForm with
              contentType := idFmt.1
              covContentFormat := idFmt.2
              covAccept := idFmt.2
              responseContentType := idFmt.1
              responseCovContentFormat := idFmt.2 }
        forms ++ [f] ++
          formatIdentifiers.foldl
            (fun inner idFmt2 =>
              if f.covAccept ≠ idFmt2.2 then
                inner ++
                  [{ f with
                       covAccept := idFmt2.2
                       responseContentType := idFmt2.1
                       responseCovContentFormat := idFmt2.2 }]
              else inner)
            []
      else
        forms ++
          formatIdentifiers.foldl
            (fun inner idFmt2 =>
              if originalForm.covAccept ≠ idFmt2.2 then
                inner ++
                  [{ originalForm with
                       covAccept := idFmt2.2
                       responseContentType := idFmt2.1
                       responseCovContentFormat := idFmt2.2 }]
              else inner)
            [])
    [newForm]

/-- Form expansion for one event affordance (source lines 167-192): a
single observe form in the default representation, then one observe form
per other registered format. -/
def eventForms (key : String) : List Form :=
  let newForm : Form :=
    { defaultForm with
        href := "events/" ++ key
        covMethod := "GET"
        op := ["subscribeevent", "unsubscribeevent"]
        subprotocol := some "cov:observe" }
  let originalForm := newForm
  formatIdentifiers.foldl
    (fun forms idFmt =>
      if originalForm.contentType ≠ idFmt.1 then
        forms ++
          [{ originalForm with
               contentType := idFmt.1
               covContentFormat := idFmt.2
               covAccept := idFmt.2
               responseContentType := idFmt.1
               responseCovContentFormat := idFmt.2 }]
      else forms)
    [newForm]

/-- The (request representation, response representation) pair of a form. -/
def formPair (f : Form) : String × String := (f.contentType, f.responseContentType)

/-- All ordered pairs of registered representations (the cross product). -/
def allReprPairs : List (String × String) :=
  supportedContentTypes.flatMap (fun a => supportedContentTypes.map (fun b => (a, b)))

/-- Modelled from the spec: the thing model template (loaded at startup
from `TM_PATH`, a file that is not part of the handler source) declares the
properties `result` and `lastChange`. -/
def propertyKeys : List String := ["result", "lastChange"]

/-- Modelled from the spec: the thing model template declares the actions
`add` and `subtract`. -/
def actionKeys : List String := ["add", "subtract"]

/-- Modelled from the spec: the thing model template declares the single
event `update`. -/
def eventKeys : List String := ["update"]

/-- The expanded thing description document: every declared affordance with
its generated form list, as assembled by the three expansion loops. -/
structure ThingDesc where
  properties : List (String × List Form)
  actions : List (String × List Form)
  events : List (String × List Form)
  deriving DecidableEq, Repr

/-- The `thingDescription` document after form expansion (the document the server
serializes for description reads and writes to disk). -/
def thingDescription : ThingDesc :=
  { properties := propertyKeys.map (fun k => (k, propertyForms k))
    actions := actionKeys.map (fun k => (k, actionForms k))
    events := eventKeys.map (fun k => (k, eventForms k)) }

/-! ## Runtime values and serialization

The JSON/CBOR codecs are external collaborators; a decoded request body is
modelled as a `JSVal` and an encoded response body as a `Payload` tagging
which encoder produced it. -/

/-- A decoded JavaScript value, as far as the handler inspects it:
`numV n` is a number, `strV` a string, `dateV t` a `Date` created at clock
time `t`, and `nullV` / `undefV` / `boolV` the remaining primitives the
`typeof x !== "number"` check can encounter. -/
inductive JSVal where
  | numV (n : Int)
  | strV (s : String)
  | dateV (t : Nat)
  | nullV
  | undefV
  | boolV (b : Bool)
  deriving DecidableEq, Repr

/-- A serialized response body: which encoder the handler chose and which
value it encoded (`tdJson d` stands for `JSON.stringify` of the expanded
thing description). -/
inductive Payload where
  | jsonBytes (v : JSVal)
  | cborBytes (v : JSVal)
  | tdJson (d : ThingDesc)
  deriving DecidableEq, Repr

/-- JavaScript `String.prototype.startsWith` on character lists. -/
def charListStarts : List Char → List Char → Bool
  | _, [] => true
  | [], _ :: _ => false
  | a :: as, b :: bs => a == b && charListStarts as bs

/-- Substring test on character lists. -/
def charListHas : List Char → List Char → Bool
  | [], sub => charListStarts [] sub
  | a :: rest, sub => charListStarts (a :: rest) sub || charListHas rest sub

/-- JavaScript `s.includes(sub)`: `sub` occurs as a substring of `s`. -/
def jsIncludes (s sub : String) : Bool := charListHas s.toList sub.toList

/-- The serialization branch the handler performs everywhere it writes a
value: `if (acceptHeaders.includes('application/json')) JSON.stringify(v)
else cbor.encode(v)`. -/
def serialize (acceptHeaders : String) (v : JSVal) : Payload :=
  if jsIncludes acceptHeaders "application/json" then Payload.jsonBytes v
  else Payload.cborBytes v

/-- The `lastChange` variable: initialized to the empty string (line 205)
and overwritten with `new Date()` on each successful mutation. -/
inductive LastChange where
  | empty
  | date (t : Nat)
  deriving DecidableEq, Repr

/-- The JavaScript value currently stored in the `lastChange` variable. -/
def lastChangeVal : LastChange → JSVal
  | LastChange.empty => JSVal.strV ""
  | LastChange.date t => JSVal.dateV t

/-- Strict "later than" on `lastChange` values: any date is later than the
initial empty string, and dates compare by clock time. -/
def lcLt : LastChange → LastChange → Prop
  | LastChange.empty, LastChange.date _ => True
  | LastChange.date s, LastChange.date t => s < t
  | _, _ => False

/-- The server's mutable state: `result` and `lastChange` (lines 204-205). -/
structure ServerState where
  result : Int
  lastChange : LastChange
  deriving DecidableEq, Repr

/-- The state at startup: `result = 0`, `lastChange = ''`. -/
def initialState : ServerState := { result := 0, lastChange := LastChange.empty }

/-- An incoming CoAP request as the handler reads it: method, url,
`Accept` / `Content-Type` / `Content-Format` / `Observe` headers, and the
decoded body (decoding is the codec collaborator's job; `undefV` stands
for an absent/undefined decode result). -/
structure CoapRequest where
  method : String
  url : String
  accept : Option String
  contentTypeHdr : Option String
  contentFormatHdr : Option String
  observe : Option Nat
  payload : JSVal
  deriving DecidableEq, Repr

/-- The response the transport puts on the wire: status code (`205`
standing for the CoAP default 2.05 Content, `404` for 4.04, and so on),
body, and the `Content-Format` option if one was set before the response
was ended. -/
structure CoapResponse where
  code : Nat
  body : Option Payload
  contentFormat : Option String
  deriving DecidableEq, Repr

/-- An active observation: which variable the interval closure watches,
the `acceptHeaders` captured at subscription time, and the baseline
(`oldResult` / `oldDate`) snapshot. -/
structure Subscription where
  target : String
  acceptHeaders : String
  baseline : JSVal
  deriving DecidableEq, Repr

/-- The outcome of running the request handler once: the wire response (if
any `res.end` ran — the first one wins, later ends are no-ops on the
wire), the `Content-Format` option currently set on `res`, the
subscriptions created, and the state after the handler returns. -/
structure Exchange where
  contentFormatOpt : Option String
  resp : Option CoapResponse
  subs : List Subscription
  st : ServerState
  deriving DecidableEq, Repr

/-- Model of `res.end` with the given code and body: commits the response if none
has been committed yet, snapshotting the `Content-Format` option. -/
def endW (ex : Exchange) (code : Nat) (body : Option Payload) : Exchange :=
  match ex.resp with
  | none =>
      { ex with
          resp := some { code := code, body := body, contentFormat := ex.contentFormatOpt } }
  | some _ => ex

/-- Model of `res.setOption('Content-Format', v)`. -/
def setOpt (ex : Exchange) (v : String) : Exchange :=
  { ex with contentFormatOpt := some v }

/-- JavaScript `a || b` on the two content-declaration headers (the empty
string is falsy). -/
def jsOrStr (a b : Option String) : Option String :=
  match a with
  | some s => if s == "" then b else some s
  | none => b

/-- Membership test `supportedContentTypes.includes(h)` where `h` may be `undefined`. -/
def isSupportedOpt : Option String → Bool
  | some s => supportedContentTypes.contains s
  | none => false

/-- JavaScript falsiness of `segments[i]`: `undefined` or `''`. -/
def optFalsy : Option String → Bool
  | none => true
  | some s => s == ""

/-- Splitting a character list at every `'/'` (the tail of the JavaScript
`url.split('/')` computation, carrying the current segment in reverse). -/
def splitSlashAux : List Char → List Char → List String
  | [], acc => [String.mk acc.reverse]
  | c :: cs, acc =>
    if c = '/' then String.mk acc.reverse :: splitSlashAux cs []
    else splitSlashAux cs (c :: acc)

/-- JavaScript `req.url.split('/')`: `"".split('/') = [""]` and
`"/a/b".split('/') = ["", "a", "b"]`. -/
def jsSplitSlash (s : String) : List String := splitSlashAux s.toList []

/-- The operand validity check on a decoded body:
`typeof x !== "number" || !x` (zero and `NaN` are falsy numbers; our model
carries integer operands, so the falsy number is exactly `0`). -/
def invalidOperand : JSVal → Bool
  | JSVal.numV n => n == 0
  | _ => true

/-- The numeric content of a decoded body, defined on values that passed
the `invalidOperand` check. -/
def jsNumOf : JSVal → Int
  | JSVal.numV n => n
  | _ => 0

/-- Source lines 217-230: thing-name check and description read.  Note
that after `res.code = 404; res.end()` the handler does NOT return — the
remaining blocks still execute on the same request. -/
def blockRoot (segments : List String) (ex : Exchange) (req : CoapRequest) : Exchange :=
  if segments[1]? ≠ some thingName then
    endW ex 404 none
  else
    if optFalsy segments[2]? then
      if req.method = "GET" then endW ex 205 (some (Payload.tdJson thingDescription))
      else endW ex 405 none
    else ex

/-- Source lines 232-343: property reads and property observations. -/
def blockProperties (segments : List String) (ex : Exchange) (req : CoapRequest) :
    Exchange :=
  if segments[2]? = some "properties" then
    if req.method = "GET" then
      match req.accept with
      | some a =>
        if supportedContentTypes.contains a then
          let ex1 := setOpt ex a
          if segments[3]? = some "result" then
            if req.observe = some 0 then
              { ex1 with
                  subs := ex1.subs ++
                    [{ target := "result", acceptHeaders := a,
                       baseline := JSVal.numV ex1.st.result }] }
            else endW ex1 205 (some (serialize a (JSVal.numV ex1.st.result)))
          else if segments[3]? = some "lastChange" then
            if req.observe = some 0 then
              { ex1 with
                  subs := ex1.subs ++
                    [{ target := "lastChange", acceptHeaders := a,
                       baseline := lastChangeVal ex1.st.lastChange }] }
            else endW ex1 205 (some (serialize a (lastChangeVal ex1.st.lastChange)))
          else endW ex1 404 none
        else endW ex 406 none
      | none => endW ex 406 none
    else endW ex 405 none
  else ex

/-- Source lines 345-429: action invocations (`add`, `subtract`), with the
415 request-representation check before the 406 accept check, operand
validation, and the state mutation `result ± n; lastChange = new Date()`. -/
def blockActions (segments : List String) (ex : Exchange) (now : Nat)
    (req : CoapRequest) : Exchange :=
  if segments[2]? = some "actions" then
    if req.method = "POST" then
      if isSupportedOpt (jsOrStr req.contentTypeHdr req.contentFormatHdr) then
        match req.accept with
        | some a =>
          if supportedContentTypes.contains a then
            let ex1 := setOpt ex a
            if segments[3]? = some "add" then
              if invalidOperand req.payload then endW ex1 400 none
              else
                let st1 : ServerState :=
                  { result := ex1.st.result + jsNumOf req.payload
                    lastChange := LastChange.date now }
                let ex2 := { ex1 with st := st1 }
                endW ex2 205 (some (serialize a (JSVal.numV st1.result)))
            else if segments[3]? = some "subtract" then
              if invalidOperand req.payload then endW ex1 400 none
              else
                let st1 : ServerState :=
                  { result := ex1.st.result - jsNumOf req.payload
                    lastChange := LastChange.date now }
                let ex2 := { ex1 with st := st1 }
                endW ex2 205 (some (serialize a (JSVal.numV st1.result)))
            else endW ex1 404 none
          else endW ex 406 none
        | none => endW ex 406 none
      else endW ex 415 none
    else endW ex 405 none
  else ex

/-- Source lines 431-476: the `update` event, which requires the observe
flag (`Observe === 0`) before the accept check and answers 4.02 (`res.code
= 402`) when it is missing. -/
def blockEvents (segments : List String) (ex : Exchange) (req : CoapRequest) :
    Exchange :=
  if segments[2]? = some "events" ∧ req.method = "GET" then
    if segments[3]? = some "update" then
      if req.observe = some 0 then
        match req.accept with
        | some a =>
          if supportedContentTypes.contains a then
            { ex with
                subs := ex.subs ++
                  [{ target := "update", acceptHeaders := a,
                     baseline := JSVal.numV ex.st.result }] }
          else endW ex 406 none
        | none => endW ex 406 none
      else endW ex 402 none
    else endW ex 404 none
  else ex

/-- One run of the `server.on('request', ...)` handler: the four top-level
blocks execute in source order on the same request (there is no early
return between them). -/
def handle (st : ServerState) (now : Nat) (req : CoapRequest) : Exchange :=
  blockEvents (jsSplitSlash req.url)
    (blockActions (jsSplitSlash req.url)
      (blockProperties (jsSplitSlash req.url)
        (blockRoot (jsSplitSlash req.url)
          { contentFormatOpt := none, resp := none, subs := [], st := st } req)
        req)
      now req)
    req

/-- One tick of the two numeric `setInterval` closures — the `result`
property interval (source lines 249-264) and the `update` event interval
(source lines 439-456), both of which watch the `result` variable:
`oldResult !== result` is value comparison for numbers; on inequality the
closure writes the live value serialized with the `acceptHeaders`
captured at subscription time and advances the baseline. -/
def tick (st : ServerState) (sub : Subscription) : Option Payload × Subscription :=
  if sub.baseline ≠ JSVal.numV st.result then
    (some (serialize sub.acceptHeaders (JSVal.numV st.result)),
     { sub with baseline := JSVal.numV st.result })
  else (none, sub)

/-- A JavaScript `Date` object: the timestamp it holds and its object
identity.  Every `new Date()` allocation yields a distinct object (a
fresh `oid`), and `!==` on two Dates compares identity, never the held
timestamp. -/
structure DateObj where
  time : Nat
  oid : Nat
  deriving DecidableEq, Repr

/-- The content of the `lastChange` variable as the observation closure
captures it: the initial empty string, or the Date object stored by the
latest mutation.  Equality on `LCVal` is JavaScript `===`: identity for
Dates (allocations carry fresh `oid`s) and value equality for the
string. -/
inductive LCVal where
  | initialStr
  | dateObj (d : DateObj)
  deriving DecidableEq, Repr

/-- The JavaScript value a `lastChange` notification serializes: the
string serializes as itself, a Date object by its timestamp alone —
object identity is invisible on the wire. -/
def lcJSVal : LCVal → JSVal
  | LCVal.initialStr => JSVal.strV ""
  | LCVal.dateObj d => JSVal.dateV d.time

/-- A `lastChange` observation closure: the `acceptHeaders` captured at
subscription time and the `oldDate` baseline object. -/
structure LCSubscription where
  acceptHeaders : String
  oldDate : LCVal
  deriving DecidableEq, Repr

/-- One tick of the `lastChange` interval closure (source lines 293-308):
`oldDate !== lastChange` compares Date object identity, so the closure
notifies exactly when the stored object was replaced — even when the
replacement holds the same timestamp; on inequality it writes the live
value serialized with the captured `acceptHeaders` and advances the
baseline to the live object. -/
def tickLastChange (live : LCVal) (sub : LCSubscription) :
    Option Payload × LCSubscription :=
  if sub.oldDate ≠ live then
    (some (serialize sub.acceptHeaders (lcJSVal live)), { sub with oldDate := live })
  else (none, sub)

/-! ## Request builders and request classification used by the theorems -/

/-- A well-formed action invocation: POST to `/<thingName>/actions/<act>`
with a declared body representation, an accept token and a decoded body. -/
def actionRequest (act ct acc : String) (v : JSVal) : CoapRequest :=
  { method := "POST"
    url := "/" ++ thingName ++ "/actions/" ++ act
    accept := some acc
    contentTypeHdr := some ct
    contentFormatHdr := none
    observe := none
    payload := v }

/-- A non-observed property read of `lastChange` with accept token `a`. -/
def lastChangeRead (a : String) : CoapRequest :=
  { method := "GET"
    url := "/" ++ thingName ++ "/properties/lastChange"
    accept := some a
    contentTypeHdr := none
    contentFormatHdr := none
    observe := none
    payload := JSVal.undefV }

/-- A request that reaches one of the two mutating branches' URLs: its
path names `actions/add` or `actions/subtract`. -/
def isMutationRequest (req : CoapRequest) : Prop :=
  (jsSplitSlash req.url)[2]? = some "actions" ∧
    ((jsSplitSlash req.url)[3]? = some "add" ∨
      (jsSplitSlash req.url)[3]? = some "subtract")

instance (req : CoapRequest) : Decidable (isMutationRequest req) := by
  unfold isMutationRequest; infer_instance

/-- The server state after handling a timestamped sequence of requests. -/
def runAll (st : ServerState) (reqs : List (Nat × CoapRequest)) : ServerState :=
  reqs.foldl (fun s tr => (handle s tr.1 tr.2).st) st

/-- The valid `add` request that a request routed to a wrong thing name
still executes (used to exhibit the missing-return fall-through). -/
def c4Request : CoapRequest :=
  { method := "POST"
    url := "/wrong-name/actions/add"
    accept := some "application/json"
    contentTypeHdr := some "application/json"
    contentFormatHdr := none
    observe := none
    payload := JSVal.numV 5 }

/-! ## Theorems -/

/-- Neither `res.end` nor `res.setOption` touches the server state. -/
theorem endW_st (ex : Exchange) (c : Nat) (b : Option Payload) :
    (endW ex c b).st = ex.st := by
  unfold endW; cases ex.resp <;> rfl

theorem endW_subs (ex : Exchange) (c : Nat) (b : Option Payload) :
    (endW ex c b).subs = ex.subs := by
  unfold endW; cases ex.resp <;> rfl

theorem blockRoot_st (segments : List String) (ex : Exchange) (req : CoapRequest) :
    (blockRoot segments ex req).st = ex.st := by
  unfold blockRoot
  split
  · exact endW_st ..
  · split
    · split
      · exact endW_st ..
      · exact endW_st ..
    · rfl

theorem blockProperties_st (segments : List String) (ex : Exchange) (req : CoapRequest) :
    (blockProperties segments ex req).st = ex.st := by
  unfold blockProperties setOpt
  repeat' split
  all_goals first | rfl | exact endW_st ..

theorem blockEvents_st (segments : List String) (ex : Exchange) (req : CoapRequest) :
    (blockEvents segments ex req).st = ex.st := by
  unfold blockEvents
  repeat' split
  all_goals first | rfl | exact endW_st ..

/-- Claim C1: for every action affordance, the (request-representation,
response-representation) pairs of the generated forms are exactly the
cross product of the two registered representations, each pair exactly
once, and the form count matches
`|representations| + (|representations| - 1) * |representations|` (= 4). -/
theorem C1_action_form_cross_product (key : String) :
    ((actionForms key).map formPair).Perm allReprPairs ∧
    ((actionForms key).map formPair).Nodup ∧
    (actionForms key).length =
      supportedContentTypes.length +
        (supportedContentTypes.length - 1) * supportedContentTypes.length := by
  have h : (actionForms key).map formPair =
      [("application/json", "application/json"),
       ("application/json", "application/cbor"),
       ("application/cbor", "application/cbor"),
       ("application/cbor", "application/json")] := rfl
  refine ⟨?_, ?_, ?_⟩
  · rw [h]; decide
  · rw [h]; decide
  · rfl

/-- Claim C2 as stated is false at the event affordance: the observable
`update` event receives 2 generated forms, not 4. -/
theorem C2_event_forms_counterexample : ¬ ((eventForms "update").length = 4) := by
  decide

/-- Claim C2 (amended): each property affordance receives
`2 × |representations|` generated forms (a read and an observe form per
registered representation; 4 here), while the event affordance receives
`|representations|` generated forms (one observe form per registered
representation; 2 for `update`). -/
theorem C2_forms_count_amended (key : String) :
    (propertyForms key).length = 2 * supportedContentTypes.length ∧
    (eventForms key).length = supportedContentTypes.length :=
  ⟨rfl, rfl⟩

/-- The root block leaves the exchange alone when the thing name matches
and a sub-path is present. -/
theorem blockRoot_skip (segments : List String) (ex : Exchange) (req : CoapRequest)
    (h1 : segments[1]? = some thingName) (h2 : optFalsy segments[2]? = false) :
    blockRoot segments ex req = ex := by
  unfold blockRoot
  simp [h1, h2]

theorem blockProperties_skip (segments : List String) (ex : Exchange)
    (req : CoapRequest) (h : segments[2]? ≠ some "properties") :
    blockProperties segments ex req = ex := by
  unfold blockProperties
  rw [if_neg h]

theorem blockActions_skip (segments : List String) (ex : Exchange) (now : Nat)
    (req : CoapRequest) (h : segments[2]? ≠ some "actions") :
    blockActions segments ex now req = ex := by
  unfold blockActions
  rw [if_neg h]

theorem blockEvents_skip (segments : List String) (ex : Exchange) (req : CoapRequest)
    (h : ¬(segments[2]? = some "events" ∧ req.method = "GET")) :
    blockEvents segments ex req = ex := by
  unfold blockEvents
  rw [if_neg h]

/-- A POST to the actions sub-path whose declared body representation is
not registered is answered 4.15 before anything else happens. -/
theorem handle_action_unsupported_ct (st : ServerState) (now : Nat) (req : CoapRequest)
    (hm : req.method = "POST")
    (h1 : (jsSplitSlash req.url)[1]? = some thingName)
    (h2 : (jsSplitSlash req.url)[2]? = some "actions")
    (hct : isSupportedOpt (jsOrStr req.contentTypeHdr req.contentFormatHdr) = false) :
    handle st now req =
      { contentFormatOpt := none
        resp := some { code := 415, body := none, contentFormat := none }
        subs := []
        st := st } := by
  unfold handle
  rw [blockRoot_skip _ _ _ h1 (by rw [h2]; decide),
      blockProperties_skip _ _ _ (by rw [h2]; decide),
      blockActions, if_pos h2, if_pos hm, hct,
      blockEvents_skip _ _ _ (by rw [h2]; simp)]
  rfl

/-- A POST to the actions sub-path with a registered body representation
but an unregistered accept token is answered 4.06. -/
theorem handle_action_unsupported_accept (st : ServerState) (now : Nat)
    (req : CoapRequest)
    (hm : req.method = "POST")
    (h1 : (jsSplitSlash req.url)[1]? = some thingName)
    (h2 : (jsSplitSlash req.url)[2]? = some "actions")
    (hct : isSupportedOpt (jsOrStr req.contentTypeHdr req.contentFormatHdr) = true)
    (hacc : isSupportedOpt req.accept = false) :
    handle st now req =
      { contentFormatOpt := none
        resp := some { code := 406, body := none, contentFormat := none }
        subs := []
        st := st } := by
  unfold handle
  rw [blockRoot_skip _ _ _ h1 (by rw [h2]; decide),
      blockProperties_skip _ _ _ (by rw [h2]; decide),
      blockActions, if_pos h2, if_pos hm, hct, if_pos rfl,
      blockEvents_skip _ _ _ (by rw [h2]; simp)]
  cases hA : req.accept with
  | none => rfl
  | some a =>
      rw [hA] at hacc
      simp only [isSupportedOpt] at hacc
      dsimp only
      rw [if_neg (by rw [hacc]; exact Bool.false_ne_true)]
      rfl

/-- Claim C3: for an action request, an unregistered body representation
fails 4.15 and, when the body representation is registered, an
unregistered accept token fails 4.06 (body check first); on either failure
the state is unchanged and the decoded body is never consulted. -/
theorem C3_action_negotiation_precedence (st : ServerState) (now : Nat)
    (req : CoapRequest)
    (hm : req.method = "POST")
    (h1 : (jsSplitSlash req.url)[1]? = some thingName)
    (h2 : (jsSplitSlash req.url)[2]? = some "actions")
    (_h3 : (jsSplitSlash req.url)[3]? = some "add" ∨
      (jsSplitSlash req.url)[3]? = some "subtract") :
    (isSupportedOpt (jsOrStr req.contentTypeHdr req.contentFormatHdr) = false →
      (handle st now req).resp =
        some { code := 415, body := none, contentFormat := none } ∧
      (handle st now req).st = st ∧
      ∀ p : JSVal, handle st now { req with payload := p } = handle st now req) ∧
    (isSupportedOpt (jsOrStr req.contentTypeHdr req.contentFormatHdr) = true →
      isSupportedOpt req.accept = false →
      (handle st now req).resp =
        some { code := 406, body := none, contentFormat := none } ∧
      (handle st now req).st = st ∧
      ∀ p : JSVal, handle st now { req with payload := p } = handle st now req) := by
  constructor
  · intro hct
    have h := handle_action_unsupported_ct st now req hm h1 h2 hct
    have h' : ∀ p : JSVal, handle st now { req with payload := p } =
        { contentFormatOpt := none
          resp := some { code := 415, body := none, contentFormat := none }
          subs := []
          st := st } := fun p =>
      handle_action_unsupported_ct st now { req with payload := p } hm h1 h2 hct
    exact ⟨by rw [h], by rw [h], fun p => by rw [h, h' p]⟩
  · intro hct hacc
    have h := handle_action_unsupported_accept st now req hm h1 h2 hct hacc
    have h' : ∀ p : JSVal, handle st now { req with payload := p } =
        { contentFormatOpt := none
          resp := some { code := 406, body := none, contentFormat := none }
          subs := []
          st := st } := fun p =>
      handle_action_unsupported_accept st now { req with payload := p } hm h1 h2 hct hacc
    exact ⟨by rw [h], by rw [h], fun p => by rw [h, h' p]⟩

/-- Witness for C3: a concrete `add` request with a `text/plain` body
declaration is answered 4.15, and one with a registered body declaration
but `text/plain` accept is answered 4.06; neither touches the state. -/
theorem C3_action_negotiation_precedence_witness :
    ((handle initialState 7
        { actionRequest "add" "text/plain" "application/json" (JSVal.numV 3) with
            contentTypeHdr := some "text/plain" }).resp =
      some { code := 415, body := none, contentFormat := none }) ∧
    ((handle initialState 7
        { actionRequest "add" "application/json" "text/plain" (JSVal.numV 3) with
            accept := some "text/plain" }).resp =
      some { code := 406, body := none, contentFormat := none }) := by
  constructor
  · exact ((C3_action_negotiation_precedence initialState 7 _ rfl (by decide) (by decide)
      (Or.inl (by decide))).1 (by decide)).1
  · exact (((C3_action_negotiation_precedence initialState 7 _ rfl (by decide) (by decide)
      (Or.inl (by decide))).2 (by decide)) (by decide)).1

/-- Claim C4 fails on the code: a valid `add` invocation addressed to a
wrong thing name is answered 4.04, but the handler does not return after
`res.end()`, so the actions block still runs and mutates the accumulator
(result goes from 0 to 5). -/
theorem C4_routing_not_found_still_mutates :
    (handle initialState 7 c4Request).resp =
      some { code := 404, body := none, contentFormat := none } ∧
    (handle initialState 7 c4Request).st.result = 5 ∧
    (handle initialState 7 c4Request).st ≠ initialState := by
  decide

/-- Claim C5: an `add` or `subtract` request with registered body and
accept representations whose decoded operand is absent, non-numeric or
zero is answered 4.00 Bad Request and leaves the state unchanged. -/
theorem C5_invalid_operand_bad_request (st : ServerState) (now : Nat)
    (req : CoapRequest) (a : String)
    (hm : req.method = "POST")
    (h1 : (jsSplitSlash req.url)[1]? = some thingName)
    (h2 : (jsSplitSlash req.url)[2]? = some "actions")
    (h3 : (jsSplitSlash req.url)[3]? = some "add" ∨
      (jsSplitSlash req.url)[3]? = some "subtract")
    (hct : isSupportedOpt (jsOrStr req.contentTypeHdr req.contentFormatHdr) = true)
    (hacc : req.accept = some a)
    (ha : supportedContentTypes.contains a = true)
    (hbad : invalidOperand req.payload = true) :
    (handle st now req).resp =
      some { code := 400, body := none, contentFormat := some a } ∧
    (handle st now req).st = st := by
  unfold handle
  rw [blockRoot_skip _ _ _ h1 (by rw [h2]; decide),
      blockProperties_skip _ _ _ (by rw [h2]; decide),
      blockActions, if_pos h2, if_pos hm, hct, if_pos rfl,
      blockEvents_skip _ _ _ (by rw [h2]; simp),
      hacc]
  dsimp only
  rw [if_pos ha]
  rcases h3 with h3 | h3
  · rw [if_pos h3, if_pos hbad]
    exact ⟨rfl, rfl⟩
  · rw [if_neg (by rw [h3]; decide), if_pos h3, if_pos hbad]
    exact ⟨rfl, rfl⟩

/-- Witness for C5: adding the operand `0` with a JSON body and CBOR
accept is answered 4.00 and leaves the initial state untouched. -/
theorem C5_invalid_operand_bad_request_witness :
    (handle initialState 3
        (actionRequest "add" "application/json" "application/cbor" (JSVal.numV 0))).resp =
      some { code := 400, body := none, contentFormat := some "application/cbor" } ∧
    (handle initialState 3
        (actionRequest "add" "application/json" "application/cbor" (JSVal.numV 0))).st =
      initialState :=
  C5_invalid_operand_bad_request initialState 3 _ "application/cbor" rfl
    (by decide) (by decide) (Or.inl (by decide)) (by decide) rfl (by decide) (by decide)

/-- Claim C6: from the initial state, a successful `add 10` followed by a
successful `subtract 5` yields `result = 5`, and each mutation stores the
current clock time in `lastChange`, so with a strictly increasing clock
each mutation's `lastChange` is strictly later than the previous value —
whichever registered representations the two calls use. -/
theorem C6_add_then_subtract (ct1 a1 ct2 a2 : String) (t1 t2 : Nat)
    (h1 : ct1 ∈ supportedContentTypes) (h2 : a1 ∈ supportedContentTypes)
    (h3 : ct2 ∈ supportedContentTypes) (h4 : a2 ∈ supportedContentTypes)
    (ht : t1 < t2) :
    (handle (handle initialState t1 (actionRequest "add" ct1 a1 (JSVal.numV 10))).st t2
        (actionRequest "subtract" ct2 a2 (JSVal.numV 5))).st.result = 5 ∧
    (handle initialState t1 (actionRequest "add" ct1 a1 (JSVal.numV 10))).resp =
      some { code := 205, body := some (serialize a1 (JSVal.numV 10)),
             contentFormat := some a1 } ∧
    (handle (handle initialState t1 (actionRequest "add" ct1 a1 (JSVal.numV 10))).st t2
        (actionRequest "subtract" ct2 a2 (JSVal.numV 5))).resp =
      some { code := 205, body := some (serialize a2 (JSVal.numV 5)),
             contentFormat := some a2 } ∧
    lcLt initialState.lastChange
      (handle initialState t1 (actionRequest "add" ct1 a1 (JSVal.numV 10))).st.lastChange ∧
    lcLt (handle initialState t1 (actionRequest "add" ct1 a1 (JSVal.numV 10))).st.lastChange
      (handle (handle initialState t1 (actionRequest "add" ct1 a1 (JSVal.numV 10))).st t2
        (actionRequest "subtract" ct2 a2 (JSVal.numV 5))).st.lastChange := by
  fin_cases h1 <;> fin_cases h2 <;> fin_cases h3 <;> fin_cases h4 <;>
    exact ⟨rfl, rfl, rfl, trivial, ht⟩

/-- Witness for C6: the concrete JSON-body/CBOR-accept `add 10` at time 1
followed by a CBOR-body/JSON-accept `subtract 5` at time 2 ends with
`result = 5` and `lastChange` advancing from time 1 to time 2. -/
theorem C6_add_then_subtract_witness :
    (1 : Nat) < 2 ∧
    (handle (handle initialState 1
        (actionRequest "add" "application/json" "application/cbor" (JSVal.numV 10))).st 2
        (actionRequest "subtract" "application/cbor" "application/json" (JSVal.numV 5))).st.result =
      5 :=
  ⟨by decide,
   (C6_add_then_subtract "application/json" "application/cbor" "application/cbor"
      "application/json" 1 2 (by decide) (by decide) (by decide) (by decide)
      (by decide)).1⟩

/-- Claim C7: a read of `events/update` without the observe flag is
answered with CoAP code 4.02 (`res.code = 402`), no subscription interval
is started, and the state is untouched. -/
theorem C7_observation_required (st : ServerState) (now : Nat) (req : CoapRequest)
    (h1 : (jsSplitSlash req.url)[1]? = some thingName)
    (h2 : (jsSplitSlash req.url)[2]? = some "events")
    (h3 : (jsSplitSlash req.url)[3]? = some "update")
    (hm : req.method = "GET")
    (ho : req.observe ≠ some 0) :
    (handle st now req).resp = some { code := 402, body := none, contentFormat := none } ∧
    (handle st now req).subs = [] ∧
    (handle st now req).st = st := by
  unfold handle
  rw [blockRoot_skip _ _ _ h1 (by rw [h2]; decide),
      blockProperties_skip _ _ _ (by rw [h2]; decide),
      blockActions_skip _ _ _ _ (by rw [h2]; decide),
      blockEvents, if_pos ⟨h2, hm⟩, if_pos h3, if_neg ho]
  exact ⟨rfl, rfl, rfl⟩

/-- Witness for C7: a plain GET of `events/update` with a registered
accept token but no observe option is answered 4.02 with no subscription. -/
theorem C7_observation_required_witness :
    (handle initialState 9
        { method := "GET"
          url := "/coap-calculator-content-negotiation/events/update"
          accept := some "application/json"
          contentTypeHdr := none
          contentFormatHdr := none
          observe := none
          payload := JSVal.undefV }).resp =
      some { code := 402, body := none, contentFormat := none } :=
  (C7_observation_required initialState 9 _ (by decide) (by decide) (by decide) rfl
    (by decide)).1

/-- Claim C8 as stated is false for `lastChange` subscriptions: after two
mutations within the same millisecond, the stored Date object (identity
1) differs from the baseline object (identity 0) while both serialize to
the same timestamp, and the tick still pushes a notification — a push
while the live state value is unchanged. -/
theorem C8_value_iff_counterexample :
    (tickLastChange (LCVal.dateObj { time := 5, oid := 1 })
        { acceptHeaders := "application/json",
          oldDate := LCVal.dateObj { time := 5, oid := 0 } }).1.isSome = true ∧
    lcJSVal (LCVal.dateObj { time := 5, oid := 1 }) =
      lcJSVal (LCVal.dateObj { time := 5, oid := 0 }) := by
  decide

/-- Claim C8 (amended): a tick of the numeric `result` / `update`
intervals notifies exactly when the live value differs from the baseline,
carrying the live value serialized with the representation captured at
subscription start and advancing the baseline, and is silent on an
unchanged value; a tick of the `lastChange` interval compares Date object
identity, so it notifies exactly when the stored object was replaced
since the baseline — carrying the serialized timestamp and advancing the
baseline even when that timestamp is unchanged — and is silent while the
stored object is unchanged. -/
theorem C8_tick_notification :
    (∀ (st : ServerState) (sub : Subscription),
      ((tick st sub).1.isSome = true ↔ sub.baseline ≠ JSVal.numV st.result) ∧
      (sub.baseline ≠ JSVal.numV st.result →
        tick st sub =
          (some (serialize sub.acceptHeaders (JSVal.numV st.result)),
           { sub with baseline := JSVal.numV st.result })) ∧
      (sub.baseline = JSVal.numV st.result → tick st sub = (none, sub))) ∧
    (∀ (live : LCVal) (sub : LCSubscription),
      ((tickLastChange live sub).1.isSome = true ↔ sub.oldDate ≠ live) ∧
      (sub.oldDate ≠ live →
        tickLastChange live sub =
          (some (serialize sub.acceptHeaders (lcJSVal live)),
           { sub with oldDate := live })) ∧
      (sub.oldDate = live → tickLastChange live sub = (none, sub))) := by
  constructor
  · intro st sub
    unfold tick
    by_cases hb : sub.baseline = JSVal.numV st.result
    · rw [if_neg (fun hc => hc hb)]
      exact ⟨by simp [hb], fun hc => absurd hb hc, fun _ => rfl⟩
    · rw [if_pos hb]
      exact ⟨by simp [hb], fun _ => rfl, fun hc => absurd hc hb⟩
  · intro live sub
    unfold tickLastChange
    by_cases hb : sub.oldDate = live
    · rw [if_neg (fun hc => hc hb)]
      exact ⟨by simp [hb], fun hc => absurd hb hc, fun _ => rfl⟩
    · rw [if_pos hb]
      exact ⟨by simp [hb], fun _ => rfl, fun hc => absurd hc hb⟩

/-- Witness for C8: with `result = 3` and a JSON `result` subscription at
baseline 0 a tick pushes JSON-serialized `3` and advances the baseline,
and a `lastChange` tick whose live object replaced a same-timestamp
baseline object still pushes that timestamp. -/
theorem C8_tick_notification_witness :
    tick { result := 3, lastChange := LastChange.empty }
        { target := "result", acceptHeaders := "application/json",
          baseline := JSVal.numV 0 } =
      (some (Payload.jsonBytes (JSVal.numV 3)),
       { target := "result", acceptHeaders := "application/json",
         baseline := JSVal.numV 3 }) ∧
    tickLastChange (LCVal.dateObj { time := 5, oid := 1 })
        { acceptHeaders := "application/json",
          oldDate := LCVal.dateObj { time := 5, oid := 0 } } =
      (some (Payload.jsonBytes (JSVal.dateV 5)),
       { acceptHeaders := "application/json",
         oldDate := LCVal.dateObj { time := 5, oid := 1 } }) :=
  ⟨((C8_tick_notification.1 { result := 3, lastChange := LastChange.empty }
      { target := "result", acceptHeaders := "application/json",
        baseline := JSVal.numV 0 }).2.1 (by decide)).trans (by decide),
   ((C8_tick_notification.2 (LCVal.dateObj { time := 5, oid := 1 })
      { acceptHeaders := "application/json",
        oldDate := LCVal.dateObj { time := 5, oid := 0 } }).2.1
      (by decide)).trans (by decide)⟩

/-- Claim C9: a GET addressed to the thing root with no further path
segment is answered with the JSON text of the full expanded thing
description and the default success code, whatever the accept token says
(no negotiation, so no 4.06 is possible on description reads), and the
state is untouched. -/
theorem C9_description_read (st : ServerState) (now : Nat) (req : CoapRequest)
    (h1 : (jsSplitSlash req.url)[1]? = some thingName)
    (h2 : (jsSplitSlash req.url)[2]? = none)
    (hm : req.method = "GET") :
    (handle st now req).resp =
      some { code := 205, body := some (Payload.tdJson thingDescription),
             contentFormat := none } ∧
    (handle st now req).st = st := by
  unfold handle
  rw [blockProperties_skip _ _ _ (by rw [h2]; decide),
      blockActions_skip _ _ _ _ (by rw [h2]; decide),
      blockEvents_skip _ _ _ (by rw [h2]; simp),
      blockRoot, if_neg (by rw [h1]; exact fun hc => hc rfl),
      if_pos (by rw [h2]; rfl), if_pos hm]
  exact ⟨rfl, rfl⟩

/-- Witness for C9: a root GET carrying the unregistered accept token
`text/html` still receives the description with the success code. -/
theorem C9_description_read_witness :
    (handle initialState 4
        { method := "GET"
          url := "/coap-calculator-content-negotiation"
          accept := some "text/html"
          contentTypeHdr := none
          contentFormatHdr := none
          observe := none
          payload := JSVal.undefV }).resp =
      some { code := 205, body := some (Payload.tdJson thingDescription),
             contentFormat := none } :=
  (C9_description_read initialState 4 _ (by decide) (by decide) rfl).1

/-- The actions block leaves the state alone unless the request path names
`actions/add` or `actions/subtract`. -/
theorem blockActions_st_no_mutation (segments : List String) (ex : Exchange)
    (now : Nat) (req : CoapRequest)
    (h : segments[2]? ≠ some "actions" ∨
      (segments[3]? ≠ some "add" ∧ segments[3]? ≠ some "subtract")) :
    (blockActions segments ex now req).st = ex.st := by
  rcases h with h | ⟨ha, hs⟩
  · rw [blockActions_skip _ _ _ _ h]
  · unfold blockActions setOpt
    repeat' split
    all_goals first | rfl | exact endW_st ..

/-- A request whose path does not name `actions/add` or `actions/subtract`
leaves the server state unchanged. -/
theorem handle_preserves_state (st : ServerState) (now : Nat) (req : CoapRequest)
    (h : ¬ isMutationRequest req) : (handle st now req).st = st := by
  have hd : (jsSplitSlash req.url)[2]? ≠ some "actions" ∨
      ((jsSplitSlash req.url)[3]? ≠ some "add" ∧
        (jsSplitSlash req.url)[3]? ≠ some "subtract") := by
    by_cases h2 : (jsSplitSlash req.url)[2]? = some "actions"
    · exact Or.inr ⟨fun hc => h ⟨h2, Or.inl hc⟩, fun hc => h ⟨h2, Or.inr hc⟩⟩
    · exact Or.inl h2
  unfold handle
  rw [blockEvents_st, blockActions_st_no_mutation _ _ _ _ hd, blockProperties_st,
      blockRoot_st]

/-- Folding any sequence of non-mutating requests leaves the state put. -/
theorem runAll_no_mutation :
    ∀ (reqs : List (Nat × CoapRequest)) (st : ServerState),
      (∀ p ∈ reqs, ¬ isMutationRequest p.2) → runAll st reqs = st := by
  intro reqs
  induction reqs with
  | nil => intro st _; rfl
  | cons p ps ih =>
      intro st h
      have h1 : (handle st p.1 p.2).st = st :=
        handle_preserves_state _ _ _ (h p (by simp))
      show runAll (handle st p.1 p.2).st ps = st
      rw [h1]
      exact ih st (fun q hq => h q (by simp [hq]))

/-- Claim C10: before any `add`/`subtract` request, `lastChange` is still
the initial empty string, so a non-observed read of the `lastChange`
property returns the empty string serialized in the negotiated
representation, not a timestamp. -/
theorem C10_lastChange_initially_empty (reqs : List (Nat × CoapRequest))
    (h : ∀ p ∈ reqs, ¬ isMutationRequest p.2) (a : String)
    (ha : a ∈ supportedContentTypes) (t : Nat) :
    (runAll initialState reqs).lastChange = LastChange.empty ∧
    (handle (runAll initialState reqs) t (lastChangeRead a)).resp =
      some { code := 205, body := some (serialize a (JSVal.strV "")),
             contentFormat := some a } := by
  have hr : runAll initialState reqs = initialState := runAll_no_mutation reqs initialState h
  rw [hr]
  refine ⟨rfl, ?_⟩
  fin_cases ha <;> rfl

/-- Witness for C10: at startup (no requests yet), a CBOR read of
`lastChange` returns the CBOR encoding of the empty string. -/
theorem C10_lastChange_initially_empty_witness :
    (runAll initialState []).lastChange = LastChange.empty ∧
    (handle (runAll initialState []) 6 (lastChangeRead "application/cbor")).resp =
      some { code := 205, body := some (Payload.cborBytes (JSVal.strV "")),
             contentFormat := some "application/cbor" } :=
  C10_lastChange_initially_empty [] (by simp) "application/cbor" (by decide) 6

end CoapCalc
